import Mathlib

/-!
Shallow embedding of `src/server.js` (lessons-app backend).

The server exposes two store-mutating endpoints:
  * `POST /api/order`  (src/server.js lines 76-94)
  * `PUT  /api/lessons` (src/server.js lines 98-126)
backed by two MongoDB collections, `lessons` and `orders`.

Modelling conventions:
  * A request body is JSON, so payload fields are either absent (`Option.none`)
    or a JSON atom (`JsonVal`).  The order endpoint's `items` field is modelled
    as `Option (List JsonVal)`: `some l` means an array was supplied
    (`Array.isArray(items)` true), `none` means the field was absent or not an
    array — both take the same branch `!Array.isArray(items)` in the handler.
    The `name`/`phone` fields of the order payload are modelled as
    `Option String` (a JSON string or absent), which is the shape both the
    spec's data model and every request contract here exercise.
  * JavaScript numbers are modelled as `ℚ`; `NaN` (and the infinities, which
    the handlers treat identically to `NaN`: both fail the
    `Number.isFinite` test and neither compares `< 0` into a distinct branch)
    is `Option.none` in the result of the `Number(·)` coercion `toNumber`.
  * The MongoDB collections are lists of documents.  `updateOne` with filter
    `{subject, 'locations.city': city}` and update `{$set:
    {'locations.$.spaces': v}}` rewrites the first matching array element of
    the first matching document; `insertOne` appends.  Fields of the stored
    documents that the server never touches are collapsed into one opaque
    `extra` field so that frame properties are expressible.
  * The database-readiness flag (`Lessons`/`Orders` being set after
    `connectDB`) is the `ready : Bool` argument of each handler; `!Lessons`
    throws and is caught by the handler's `catch`, producing the 500 response
    (`serverError`).
  * `createdAt = new Date()` is modelled by passing the current time `now : ℕ`
    to the order handler.
-/

namespace LessonsApp

/-- A JSON atom as it appears in a parsed request body (`express.json()`).
JSON itself has no `NaN`/`Infinity`, so numbers are finite rationals. -/
inductive JsonVal where
  | jnull
  | jbool (b : Bool)
  | jnum (q : ℚ)
  | jstr (s : String)
deriving DecidableEq, Repr

/-- JavaScript truthiness of a JSON atom: `null`, `false`, `0` and `""` are
falsy, everything else truthy. -/
def JsonVal.truthy : JsonVal → Bool
  | .jnull => false
  | .jbool b => b
  | .jnum q => decide (q ≠ 0)
  | .jstr s => !s.isEmpty

/-- Truthiness of a possibly-absent field: `undefined` is falsy. -/
def truthyOpt : Option JsonVal → Bool
  | none => false
  | some v => v.truthy

def isDigitChar (c : Char) : Bool := '0' ≤ c && c ≤ '9'

/-- The whitespace JavaScript trims (restricted to the ASCII whitespace the
contracts here exercise). -/
def isJsWhitespace (c : Char) : Bool :=
  c == ' ' || c == '\t' || c == '\n' || c == '\r'

/-- Strip leading and trailing whitespace from a character list. -/
def trimChars (cs : List Char) : List Char :=
  ((cs.dropWhile isJsWhitespace).reverse.dropWhile isJsWhitespace).reverse

/-- JavaScript `s.trim()`. -/
def jsTrim (s : String) : String :=
  String.mk (trimChars s.toList)

def natOfDigits (cs : List Char) : ℕ :=
  cs.foldl (fun n c => 10 * n + (c.toNat - '0'.toNat)) 0

/-- Decimal-literal fragment of JavaScript string-to-number conversion:
`digits`, `digits.`, `digits.digits` or `.digits`.  Anything else (including
the exotic forms `1e3`, `0x10`, `Infinity`, none of which the server's
contracts exercise) is treated as not-a-finite-number (`none`). -/
def parseDecimal (cs : List Char) : Option ℚ :=
  let intPart := cs.takeWhile isDigitChar
  match cs.dropWhile isDigitChar with
  | [] => if intPart.isEmpty then none else some (mkRat (natOfDigits intPart) 1)
  | '.' :: frac =>
      if frac.all isDigitChar && !(intPart.isEmpty && frac.isEmpty) then
        some (mkRat (natOfDigits intPart * 10 ^ frac.length + natOfDigits frac)
          (10 ^ frac.length))
      else none
  | _ => none

/-- JavaScript `Number(s)` for a string `s`: whitespace is trimmed, the empty
string converts to `0`, an optional sign precedes a decimal literal; a
non-numeric remainder gives `NaN` (`none`). -/
def strToNumber (s : String) : Option ℚ :=
  match trimChars s.toList with
  | [] => some 0
  | '-' :: r => (parseDecimal r).map (fun q => -q)
  | '+' :: r => parseDecimal r
  | r => parseDecimal r

/-- JavaScript `Number(x)` on a possibly-absent JSON atom:
`Number(undefined) = NaN`, `Number(null) = 0`, booleans convert to `0`/`1`,
numbers are themselves, strings go through `strToNumber`.  `none` is `NaN`. -/
def toNumber : Option JsonVal → Option ℚ
  | none => none
  | some .jnull => some 0
  | some (.jbool b) => some (if b then 1 else 0)
  | some (.jnum q) => some q
  | some (.jstr s) => strToNumber s

/-- The test `/^[a-zA-Z ]+$/.test(s)` of src/server.js line 82: `s` is
non-empty and every character is an ASCII letter or a space. -/
def nameOk (s : String) : Bool :=
  !s.isEmpty && s.toList.all (fun c => ('A' ≤ c && c ≤ 'Z') || ('a' ≤ c && c ≤ 'z') || c == ' ')

/-- The test `/^[0-9]+$/.test(s)` of src/server.js line 83: `s` is non-empty
and every character is an ASCII digit. -/
def phoneOk (s : String) : Bool :=
  !s.isEmpty && s.toList.all isDigitChar

/-- One entry of a lesson's `locations` array.  `extra` stands for any fields
of the entry other than `city` and `spaces`; the server never reads or writes
them. -/
structure Location where
  city : String
  spaces : ℚ
  extra : String
deriving DecidableEq, Repr

/-- A document of the `lessons` collection.  `extra` stands for all fields
other than `subject` and `locations` (e.g. `_id`); the server never touches
them. -/
structure Lesson where
  subject : String
  locations : List Location
  extra : String
deriving DecidableEq, Repr

/-- A document of the `orders` collection, exactly the object built at
src/server.js line 87. -/
structure OrderDoc where
  name : String
  phone : String
  items : List JsonVal
  total : ℚ
  createdAt : ℕ
deriving DecidableEq, Repr

/-- The two collections of the database `lessons_app`. -/
structure Store where
  lessons : List Lesson
  orders : List OrderDoc
deriving DecidableEq, Repr

/-- Body of a `PUT /api/lessons` request (destructured at line 101). -/
structure PutPayload where
  subject : Option JsonVal
  city : Option JsonVal
  spaces : Option JsonVal
deriving DecidableEq, Repr

/-- Body of a `POST /api/order` request (destructured at line 79). -/
structure OrderPayload where
  name : Option String
  phone : Option String
  items : Option (List JsonVal)
  total : Option JsonVal
deriving DecidableEq, Repr

/-- Outcome of the `PUT /api/lessons` handler. -/
inductive PutResult where
  /-- 400 with the given `message`. -/
  | badRequest (message : String)
  /-- 404 `{message:'Lesson or city not found'}`. -/
  | notFound
  /-- 200 `{ok:true, subject, city, spaces}` echoing the payload values. -/
  | ok (subject city : JsonVal) (spaces : ℚ)
  /-- 500 `{message:'Failed to update spaces'}` (the catch branch). -/
  | serverError
deriving DecidableEq, Repr

def PutResult.isBadRequest : PutResult → Bool
  | .badRequest _ => true
  | _ => false

/-- Outcome of the `POST /api/order` handler. -/
inductive PostResult where
  /-- 400 with the given `message`. -/
  | badRequest (message : String)
  /-- 200 `{message:'Order saved successfully', order}`. -/
  | okOrder (order : OrderDoc)
  /-- 500 `{message:'Failed to save order'}` (the catch branch). -/
  | serverError
deriving DecidableEq, Repr

def PostResult.isBadRequest : PostResult → Bool
  | .badRequest _ => true
  | _ => false

/-- MongoDB equality between a query value and a stored string field: only a
JSON string equal to the stored text matches. -/
def JsonVal.eqStr : JsonVal → String → Bool
  | .jstr s, t => s == t
  | _, _ => false

/-- Does a location entry match the `'locations.city': city` clause? -/
def locCityMatch (city : JsonVal) (loc : Location) : Bool :=
  city.eqStr loc.city

/-- Does a lesson document match the filter `{subject, 'locations.city': city}`
of src/server.js line 115? -/
def lessonMatches (subject city : JsonVal) (l : Lesson) : Bool :=
  subject.eqStr l.subject && l.locations.any (locCityMatch city)

/-- The positional update `$set {'locations.$.spaces': v}`: rewrite the
`spaces` field of the first array element matching the `locations.city`
clause, leaving every other element untouched. -/
def setFirstSpaces (city : JsonVal) (v : ℚ) : List Location → List Location
  | [] => []
  | loc :: rest =>
      if locCityMatch city loc then { loc with spaces := v } :: rest
      else loc :: setFirstSpaces city v rest

/-- `Lessons.updateOne(filter, {$set: {'locations.$.spaces': v}})`
(src/server.js lines 114-117): update the first matching document; `none`
means `matchedCount === 0` and no document was written. -/
def updateOne (subject city : JsonVal) (v : ℚ) : List Lesson → Option (List Lesson)
  | [] => none
  | l :: rest =>
      if lessonMatches subject city l then
        some ({ l with locations := setFirstSpaces city v l.locations } :: rest)
      else
        (updateOne subject city v rest).map (l :: ·)

/-- The `PUT /api/lessons` handler (src/server.js lines 98-126).  `ready` is
whether `connectDB` has completed (`Lessons` is set); when it has not, the
first statement of the `try` block throws and the `catch` answers 500. -/
def putLessons (ready : Bool) (p : PutPayload) (st : Store) : PutResult × Store :=
  if !ready then (.serverError, st)
  else if !truthyOpt p.subject || !truthyOpt p.city || p.spaces.isNone then
    (.badRequest "subject, city, and spaces are required", st)
  else
    match toNumber p.spaces with
    | none => (.badRequest "spaces must be a non-negative number", st)
    | some newSpaces =>
      if newSpaces < 0 then (.badRequest "spaces must be a non-negative number", st)
      else
        let sv := p.subject.getD .jnull
        let cv := p.city.getD .jnull
        match updateOne sv cv newSpaces st.lessons with
        | none => (.notFound, st)
        | some lessons' => (.ok sv cv newSpaces, { st with lessons := lessons' })

/-- The `POST /api/order` handler (src/server.js lines 76-94).  `now` is the
clock value `new Date()` reads at line 87. -/
def postOrder (ready : Bool) (now : ℕ) (p : OrderPayload) (st : Store) :
    PostResult × Store :=
  if !ready then (.serverError, st)
  else if !nameOk (p.name.getD "") then (.badRequest "Invalid name format", st)
  else if !phoneOk (p.phone.getD "") then (.badRequest "Invalid phone format", st)
  else
    match p.items with
    | none => (.badRequest "Order must contain items", st)
    | some [] => (.badRequest "Order must contain items", st)
    | some items =>
      match toNumber p.total with
      | none => (.badRequest "Invalid total", st)
      | some t =>
        let order : OrderDoc :=
          { name := jsTrim (p.name.getD "")
            phone := jsTrim (p.phone.getD "")
            items := items
            total := t
            createdAt := now }
        (.okOrder order, { st with orders := st.orders ++ [order] })

/-- The validation of the PUT handler, as one predicate: the payload clears
both 400 checks of src/server.js lines 104-111. -/
def putValidB (p : PutPayload) : Bool :=
  (truthyOpt p.subject && truthyOpt p.city && !p.spaces.isNone) &&
    (match toNumber p.spaces with
     | none => false
     | some q => decide (0 ≤ q))

/-- The validation of the order handler, as one predicate: the payload clears
all four 400 checks of src/server.js lines 82-85. -/
def orderValidB (p : OrderPayload) : Bool :=
  nameOk (p.name.getD "") && phoneOk (p.phone.getD "") &&
    (match p.items with
     | some (_ :: _) => true
     | _ => false) &&
    (toNumber p.total).isSome

/-- Every stored `spaces` value is a non-negative number. -/
def Store.spacesNonneg (st : Store) : Bool :=
  st.lessons.all (fun l => l.locations.all (fun loc => decide (0 ≤ loc.spaces)))

/-- Every stored `spaces` value is an integer. -/
def Store.allSpacesInt (st : Store) : Bool :=
  st.lessons.all (fun l => l.locations.all (fun loc => loc.spaces.den == 1))

/-- A concrete store used by witnesses: two lessons, `Math` offered in Berlin
and London, `Art` offered in Paris. -/
def mathStore : Store :=
  { lessons :=
      [ { subject := "Math"
          locations :=
            [ { city := "Berlin", spaces := 5, extra := "b" }
            , { city := "London", spaces := 4, extra := "l" } ]
          extra := "m" }
      , { subject := "Art"
          locations := [ { city := "Paris", spaces := 7, extra := "p" } ]
          extra := "a" } ]
    orders := [ { name := "Old", phone := "1", items := [.jstr "x"], total := 3, createdAt := 0 } ] }

/-! ### Helper lemmas about the positional `$set` and `updateOne` -/

theorem locCityMatch_set (c' : JsonVal) (v : ℚ) (loc : Location) :
    locCityMatch c' { loc with spaces := v } = locCityMatch c' loc := rfl

theorem setFirstSpaces_any (c c' : JsonVal) (v : ℚ) (locs : List Location) :
    (setFirstSpaces c v locs).any (locCityMatch c') = locs.any (locCityMatch c') := by
  induction locs with
  | nil => rfl
  | cons loc rest ih =>
      cases h : locCityMatch c loc with
      | true => simp [setFirstSpaces, h, locCityMatch_set]
      | false => simp [setFirstSpaces, h, ih]

theorem setFirstSpaces_idem (c : JsonVal) (v : ℚ) (locs : List Location) :
    setFirstSpaces c v (setFirstSpaces c v locs) = setFirstSpaces c v locs := by
  induction locs with
  | nil => rfl
  | cons loc rest ih =>
      cases h : locCityMatch c loc with
      | true =>
          have h' : locCityMatch c { loc with spaces := v } = true := by
            rw [locCityMatch_set]; exact h
          simp [setFirstSpaces, h, h']
      | false => simp [setFirstSpaces, h, ih]

theorem setFirstSpaces_split (c : JsonVal) (v : ℚ) (locs : List Location)
    (h : locs.any (locCityMatch c) = true) :
    ∃ pre loc post, locs = pre ++ loc :: post ∧ locCityMatch c loc = true ∧
      setFirstSpaces c v locs = pre ++ { loc with spaces := v } :: post := by
  induction locs with
  | nil => simp at h
  | cons l rest ih =>
      cases hl : locCityMatch c l with
      | true => exact ⟨[], l, rest, rfl, hl, by simp [setFirstSpaces, hl]⟩
      | false =>
          have hrest : rest.any (locCityMatch c) = true := by
            simpa [List.any_cons, hl] using h
          obtain ⟨pre, loc, post, h1, h2, h3⟩ := ih hrest
          exact ⟨l :: pre, loc, post, by simp [h1], h2, by simp [setFirstSpaces, hl, h3]⟩

theorem updateOne_eq_none_iff (s c : JsonVal) (v : ℚ) (ls : List Lesson) :
    updateOne s c v ls = none ↔ ls.any (lessonMatches s c) = false := by
  induction ls with
  | nil => simp [updateOne]
  | cons l rest ih =>
      cases h : lessonMatches s c l with
      | true => simp [updateOne, h]
      | false => simp [updateOne, h, Option.map_eq_none', ih]

theorem updateOne_split (s c : JsonVal) (v : ℚ) (ls ls' : List Lesson)
    (h : updateOne s c v ls = some ls') :
    ∃ pre l post, ls = pre ++ l :: post ∧ lessonMatches s c l = true ∧
      ls' = pre ++ { l with locations := setFirstSpaces c v l.locations } :: post := by
  induction ls generalizing ls' with
  | nil => simp [updateOne] at h
  | cons l rest ih =>
      cases hl : lessonMatches s c l with
      | true =>
          simp [updateOne, hl] at h
          exact ⟨[], l, rest, rfl, hl, h.symm⟩
      | false =>
          simp [updateOne, hl, Option.map_eq_some'] at h
          obtain ⟨rest', hrest, hcons⟩ := h
          obtain ⟨pre, l0, post, h1, h2, h3⟩ := ih rest' hrest
          exact ⟨l :: pre, l0, post, by simp [h1], h2, by simp [← hcons, h3]⟩

theorem updateOne_idem (s c : JsonVal) (v : ℚ) (ls ls' : List Lesson)
    (h : updateOne s c v ls = some ls') : updateOne s c v ls' = some ls' := by
  induction ls generalizing ls' with
  | nil => simp [updateOne] at h
  | cons l rest ih =>
      cases hl : lessonMatches s c l with
      | true =>
          simp [updateOne, hl] at h
          subst h
          have hm : lessonMatches s c { l with locations := setFirstSpaces c v l.locations } = true := by
            simpa [lessonMatches, setFirstSpaces_any] using hl
          simp [updateOne, hm, setFirstSpaces_idem]
      | false =>
          simp [updateOne, hl, Option.map_eq_some'] at h
          obtain ⟨rest', hrest, hcons⟩ := h
          subst hcons
          simp [updateOne, hl, Option.map_eq_some', ih rest' hrest]

/-! ### Evaluation and inversion lemmas for the two handlers -/

theorem putLessons_valid_eval (p : PutPayload) (st : Store) (q : ℚ)
    (hs : truthyOpt p.subject = true) (hc : truthyOpt p.city = true)
    (hq : toNumber p.spaces = some q) (h0 : ¬ q < 0) :
    putLessons true p st =
      match updateOne (p.subject.getD .jnull) (p.city.getD .jnull) q st.lessons with
      | none => (.notFound, st)
      | some ls' =>
          (.ok (p.subject.getD .jnull) (p.city.getD .jnull) q, { st with lessons := ls' }) := by
  have hps : p.spaces.isNone = false := by
    cases hsp : p.spaces with
    | none => rw [hsp] at hq; simp [toNumber] at hq
    | some v => rfl
  simp [putLessons, hs, hc, hps, hq, h0]

theorem putLessons_ok_of (p : PutPayload) (st : Store) (q : ℚ) (ls' : List Lesson)
    (hs : truthyOpt p.subject = true) (hc : truthyOpt p.city = true)
    (hq : toNumber p.spaces = some q) (h0 : ¬ q < 0)
    (hu : updateOne (p.subject.getD .jnull) (p.city.getD .jnull) q st.lessons = some ls') :
    putLessons true p st =
      (.ok (p.subject.getD .jnull) (p.city.getD .jnull) q, { st with lessons := ls' }) := by
  rw [putLessons_valid_eval p st q hs hc hq h0, hu]

theorem putLessons_ok_inv (p : PutPayload) (st : Store) (s c : JsonVal) (q : ℚ) (st' : Store)
    (h : putLessons true p st = (.ok s c q, st')) :
    truthyOpt p.subject = true ∧ truthyOpt p.city = true ∧
      s = p.subject.getD .jnull ∧ c = p.city.getD .jnull ∧
      toNumber p.spaces = some q ∧ ¬ q < 0 ∧
      ∃ ls', updateOne s c q st.lessons = some ls' ∧ st' = { st with lessons := ls' } := by
  cases hs : truthyOpt p.subject with
  | false => simp only [putLessons] at h; simp [hs] at h
  | true =>
  cases hc : truthyOpt p.city with
  | false => simp only [putLessons] at h; simp [hc] at h
  | true =>
  cases hsp : p.spaces.isNone with
  | true => simp only [putLessons] at h; simp [hs, hc, hsp] at h
  | false =>
  cases hq : toNumber p.spaces with
  | none => simp only [putLessons] at h; simp [hs, hc, hsp, hq] at h
  | some q' =>
  by_cases h0 : q' < 0
  · simp only [putLessons] at h; simp [hs, hc, hsp, hq, h0] at h
  · rw [putLessons_valid_eval p st q' hs hc hq h0] at h
    cases hu : updateOne (p.subject.getD .jnull) (p.city.getD .jnull) q' st.lessons with
    | none => rw [hu] at h; simp at h
    | some ls' =>
        rw [hu] at h
        simp only [Prod.mk.injEq, PutResult.ok.injEq] at h
        obtain ⟨⟨hsub, hcity, hqq⟩, hst⟩ := h
        subst hsub; subst hcity; subst hqq
        exact ⟨rfl, rfl, rfl, rfl, rfl, h0, ls', hu, hst.symm⟩

theorem putLessons_badRequest_state (p : PutPayload) (st : Store)
    (h : (putLessons true p st).1.isBadRequest = true) :
    (putLessons true p st).2 = st := by
  cases hs : truthyOpt p.subject with
  | false => simp [putLessons, hs]
  | true =>
  cases hc : truthyOpt p.city with
  | false => simp [putLessons, hs, hc]
  | true =>
  cases hsp : p.spaces.isNone with
  | true => simp [putLessons, hs, hc, hsp]
  | false =>
  cases hq : toNumber p.spaces with
  | none => simp [putLessons, hs, hc, hsp, hq]
  | some q' =>
  by_cases h0 : q' < 0
  · simp [putLessons, hs, hc, hsp, hq, h0]
  · rw [putLessons_valid_eval p st q' hs hc hq h0] at h ⊢
    cases hu : updateOne (p.subject.getD .jnull) (p.city.getD .jnull) q' st.lessons with
    | none => rfl
    | some ls' => rw [hu] at h; simp [PutResult.isBadRequest] at h

theorem putLessons_notFound_state (p : PutPayload) (st : Store)
    (h : (putLessons true p st).1 = .notFound) :
    (putLessons true p st).2 = st := by
  cases hs : truthyOpt p.subject with
  | false => simp [putLessons, hs]
  | true =>
  cases hc : truthyOpt p.city with
  | false => simp [putLessons, hs, hc]
  | true =>
  cases hsp : p.spaces.isNone with
  | true => simp [putLessons, hs, hc, hsp]
  | false =>
  cases hq : toNumber p.spaces with
  | none => simp [putLessons, hs, hc, hsp, hq]
  | some q' =>
  by_cases h0 : q' < 0
  · simp [putLessons, hs, hc, hsp, hq, h0]
  · rw [putLessons_valid_eval p st q' hs hc hq h0] at h ⊢
    cases hu : updateOne (p.subject.getD .jnull) (p.city.getD .jnull) q' st.lessons with
    | none => rfl
    | some ls' => rw [hu] at h; simp at h

theorem putValidB_unpack (p : PutPayload) (h : putValidB p = true) :
    truthyOpt p.subject = true ∧ truthyOpt p.city = true ∧
      ∃ q, toNumber p.spaces = some q ∧ ¬ q < 0 := by
  cases hs : truthyOpt p.subject with
  | false => simp [putValidB, hs] at h
  | true =>
  cases hc : truthyOpt p.city with
  | false => simp [putValidB, hc] at h
  | true =>
  cases hq : toNumber p.spaces with
  | none => simp [putValidB, hq] at h
  | some q =>
      refine ⟨rfl, rfl, q, rfl, ?_⟩
      simp [putValidB, hs, hc, hq] at h
      exact not_lt.mpr h.2

theorem putLessons_notFound_iff (p : PutPayload) (st : Store) (hv : putValidB p = true) :
    (putLessons true p st).1 = .notFound ↔
      st.lessons.any
        (lessonMatches (p.subject.getD .jnull) (p.city.getD .jnull)) = false := by
  obtain ⟨hs, hc, q, hq, h0⟩ := putValidB_unpack p hv
  rw [putLessons_valid_eval p st q hs hc hq h0]
  cases hu : updateOne (p.subject.getD .jnull) (p.city.getD .jnull) q st.lessons with
  | none =>
      simp [(updateOne_eq_none_iff _ _ q _).mp hu]
  | some ls' =>
      have : ¬ updateOne (p.subject.getD .jnull) (p.city.getD .jnull) q st.lessons = none := by
        simp [hu]
      rw [updateOne_eq_none_iff] at this
      simp [this]

/-- The document built and inserted at src/server.js line 87 for a payload
that passed all four validation checks. -/
def mkOrder (p : OrderPayload) (now : ℕ) : OrderDoc :=
  { name := jsTrim (p.name.getD "")
    phone := jsTrim (p.phone.getD "")
    items := p.items.getD []
    total := (toNumber p.total).getD 0
    createdAt := now }

theorem postOrder_valid_eval (now : ℕ) (p : OrderPayload) (st : Store)
    (h : orderValidB p = true) :
    postOrder true now p st =
      (.okOrder (mkOrder p now), { st with orders := st.orders ++ [mkOrder p now] }) := by
  cases hn : nameOk (p.name.getD "") with
  | false => simp [orderValidB, hn] at h
  | true =>
  cases hp : phoneOk (p.phone.getD "") with
  | false => simp [orderValidB, hp] at h
  | true =>
  cases hi : p.items with
  | none => simp [orderValidB, hi] at h
  | some items =>
    cases items with
    | nil => simp [orderValidB, hn, hp, hi] at h
    | cons i tl =>
      cases ht : toNumber p.total with
      | none => simp [orderValidB, ht] at h
      | some t => simp [postOrder, hn, hp, hi, ht, mkOrder]

/-- A PUT payload for subject `Math`, city `Berlin`, with the given spaces
value. -/
def putMB (v : JsonVal) : PutPayload :=
  { subject := some (.jstr "Math"), city := some (.jstr "Berlin"), spaces := some v }

/-- `mathStore` with the Berlin entry of the `Math` lesson set to `q`. -/
def mathStoreB (q : ℚ) : Store :=
  { lessons :=
      [ { subject := "Math"
          locations :=
            [ { city := "Berlin", spaces := q, extra := "b" }
            , { city := "London", spaces := 4, extra := "l" } ]
          extra := "m" }
      , { subject := "Art"
          locations := [ { city := "Paris", spaces := 7, extra := "p" } ]
          extra := "a" } ]
    orders := [ { name := "Old", phone := "1", items := [.jstr "x"], total := 3, createdAt := 0 } ] }

/-! ### The claims -/

/-- C2: the spaces update is idempotent: whenever a PUT /api/lessons request
succeeds on state `st` with the 200 response `{ok:true, subject, city,
spaces}` and final state `st1`, re-applying the same payload to `st1` yields
the same success response and the same final state `st1`. -/
theorem c2_updateSpaces_idempotent (p : PutPayload) (st st1 : Store)
    (s c : JsonVal) (q : ℚ) (h : putLessons true p st = (.ok s c q, st1)) :
    putLessons true p st1 = (.ok s c q, st1) := by
  obtain ⟨hs, hc, hsub, hcity, hq, h0, ls', hu, hst⟩ := putLessons_ok_inv p st s c q st1 h
  subst hsub; subst hcity; subst hst
  have hu2 := updateOne_idem _ _ q _ _ hu
  have h2 := putLessons_ok_of p { st with lessons := ls' } q ls' hs hc hq h0 hu2
  simpa using h2

/-- C2 witness: updating Math/Berlin to 3 spaces twice gives the same state
and response as doing it once. -/
theorem c2_updateSpaces_idempotent_witness :
    putLessons true (putMB (.jnum 3)) mathStore =
        (.ok (.jstr "Math") (.jstr "Berlin") 3, mathStoreB 3) ∧
    putLessons true (putMB (.jnum 3)) (mathStoreB 3) =
        (.ok (.jstr "Math") (.jstr "Berlin") 3, mathStoreB 3) :=
  ⟨by decide,
   c2_updateSpaces_idempotent (putMB (.jnum 3)) mathStore (mathStoreB 3)
     (.jstr "Math") (.jstr "Berlin") 3 (by decide)⟩

/-- C3: frame property of a successful PUT /api/lessons: the orders collection
is unchanged, and the lessons list decomposes so that exactly one lesson — the
first one matching the filter — is replaced, itself changed only by replacing
the first location entry whose city matches, itself changed only in its
`spaces` field (set to the validated value); all other lessons (`preL`,
`postL`), all other location entries (`preLoc`, `postLoc`), and all the other
fields of the touched lesson and entry are carried over by the record
updates. -/
theorem c3_update_frame (p : PutPayload) (st st' : Store) (s c : JsonVal) (q : ℚ)
    (h : putLessons true p st = (.ok s c q, st')) :
    st'.orders = st.orders ∧
      ∃ preL l postL preLoc loc postLoc,
        st.lessons = preL ++ l :: postL ∧
        l.locations = preLoc ++ loc :: postLoc ∧
        lessonMatches s c l = true ∧ locCityMatch c loc = true ∧
        st'.lessons =
          preL ++
            { l with locations := preLoc ++ { loc with spaces := q } :: postLoc } :: postL := by
  obtain ⟨hs, hc, hsub, hcity, hq, h0, ls', hu, hst⟩ := putLessons_ok_inv p st s c q st' h
  subst hst
  refine ⟨rfl, ?_⟩
  obtain ⟨preL, l, postL, h1, h2, h3⟩ := updateOne_split _ _ q _ _ hu
  have hany : l.locations.any (locCityMatch c) = true := by
    have h2' := h2
    simp only [lessonMatches, Bool.and_eq_true] at h2'
    exact h2'.2
  obtain ⟨preLoc, loc, postLoc, g1, g2, g3⟩ := setFirstSpaces_split c q l.locations hany
  exact ⟨preL, l, postL, preLoc, loc, postLoc, h1, g1, h2, g2, by simp [h3, g3]⟩

/-- C3 witness: updating Math/Berlin to 3 in the two-lesson sample store
touches only that entry's spaces. -/
theorem c3_update_frame_witness :
    putLessons true (putMB (.jnum 3)) mathStore =
        (.ok (.jstr "Math") (.jstr "Berlin") 3, mathStoreB 3) ∧
    ((mathStoreB 3).orders = mathStore.orders ∧
      ∃ preL l postL preLoc loc postLoc,
        mathStore.lessons = preL ++ l :: postL ∧
        l.locations = preLoc ++ loc :: postLoc ∧
        lessonMatches (.jstr "Math") (.jstr "Berlin") l = true ∧
        locCityMatch (.jstr "Berlin") loc = true ∧
        (mathStoreB 3).lessons =
          preL ++
            { l with locations := preLoc ++ { loc with spaces := 3 } :: postLoc } :: postL) :=
  ⟨by decide,
   c3_update_frame (putMB (.jnum 3)) mathStore (mathStoreB 3)
     (.jstr "Math") (.jstr "Berlin") 3 (by decide)⟩

/-- C4: PUT /api/lessons fails atomically: for a payload that passes
validation, the response is 404 exactly when no lesson document matches the
(subject, city) pair, and then the store is unchanged; every 400 response also
leaves the store unchanged. -/
theorem c4_put_fails_atomically (p : PutPayload) (st : Store) :
    (putValidB p = true →
      ((putLessons true p st).1 = .notFound ↔
        st.lessons.any
          (lessonMatches (p.subject.getD .jnull) (p.city.getD .jnull)) = false)) ∧
    ((putLessons true p st).1 = .notFound → (putLessons true p st).2 = st) ∧
    ((putLessons true p st).1.isBadRequest = true → (putLessons true p st).2 = st) :=
  ⟨fun hv => putLessons_notFound_iff p st hv,
   fun h => putLessons_notFound_state p st h,
   fun h => putLessons_badRequest_state p st h⟩

/-- C4 witness: a validated payload for Math/Paris (a subject/city pair no
lesson has) gets 404 and the sample store is untouched. -/
theorem c4_put_fails_atomically_witness :
    putValidB { subject := some (.jstr "Math"), city := some (.jstr "Paris"),
                spaces := some (.jnum 3) } = true ∧
    ((putLessons true
        { subject := some (.jstr "Math"), city := some (.jstr "Paris"),
          spaces := some (.jnum 3) } mathStore).1 = .notFound ↔
      mathStore.lessons.any
        (lessonMatches
          (({ subject := some (.jstr "Math"), city := some (.jstr "Paris"),
              spaces := some (.jnum 3) } : PutPayload).subject.getD .jnull)
          (({ subject := some (.jstr "Math"), city := some (.jstr "Paris"),
              spaces := some (.jnum 3) } : PutPayload).city.getD .jnull)) = false) ∧
    (putLessons true
        { subject := some (.jstr "Math"), city := some (.jstr "Paris"),
          spaces := some (.jnum 3) } mathStore).2 = mathStore :=
  ⟨by decide,
   (c4_put_fails_atomically _ mathStore).1 (by decide),
   (c4_put_fails_atomically _ mathStore).2.1 (by decide)⟩

/-- C5: a POST /api/order payload whose name (defaulted to `""` when absent)
fails the `^[A-Za-z ]+$` test is answered 400 "Invalid name format" with the
store untouched; a payload whose name passes the test is never answered with
that message. -/
theorem c5_name_validation (now : ℕ) (p : OrderPayload) (st : Store) :
    (nameOk (p.name.getD "") = false →
      postOrder true now p st = (.badRequest "Invalid name format", st)) ∧
    (nameOk (p.name.getD "") = true →
      (postOrder true now p st).1 ≠ .badRequest "Invalid name format") := by
  constructor
  · intro h; simp [postOrder, h]
  · intro h
    cases hp : phoneOk (p.phone.getD "") with
    | false => simp [postOrder, h, hp]
    | true =>
    cases hi : p.items with
    | none => simp [postOrder, h, hp, hi]
    | some items =>
      cases items with
      | nil => simp [postOrder, h, hp, hi]
      | cons i tl =>
        cases ht : toNumber p.total with
        | none => simp [postOrder, h, hp, hi, ht]
        | some t => simp [postOrder, h, hp, hi, ht]

/-- C5 witness: name `J@ne` is rejected with "Invalid name format" and no
order is stored; name `Jane Doe` is never rejected with that message. -/
theorem c5_name_validation_witness :
    nameOk ((some "J@ne" : Option String).getD "") = false ∧
    postOrder true 0
        { name := some "J@ne", phone := some "123", items := some [.jnum 1],
          total := some (.jnum 5) } mathStore =
      (.badRequest "Invalid name format", mathStore) ∧
    nameOk ((some "Jane Doe" : Option String).getD "") = true ∧
    (postOrder true 0
        { name := some "Jane Doe", phone := some "123", items := some [.jnum 1],
          total := some (.jnum 5) } mathStore).1 ≠ .badRequest "Invalid name format" :=
  ⟨by decide,
   (c5_name_validation 0 _ mathStore).1 (by decide),
   by decide,
   (c5_name_validation 0 _ mathStore).2 (by decide)⟩

/-- C8: a valid order payload, with the store ready, appends exactly one new
order document — name and phone trimmed, total the numeric coercion of the
input, createdAt the server clock — and the response echoes that stored
document; posting the same payload twice appends two documents (no
deduplication). -/
theorem c8_order_insert (now now2 : ℕ) (p : OrderPayload) (st : Store)
    (h : orderValidB p = true) :
    postOrder true now p st =
        (.okOrder (mkOrder p now), { st with orders := st.orders ++ [mkOrder p now] }) ∧
    (mkOrder p now).name = jsTrim (p.name.getD "") ∧
    (mkOrder p now).phone = jsTrim (p.phone.getD "") ∧
    (mkOrder p now).total = (toNumber p.total).getD 0 ∧
    (mkOrder p now).createdAt = now ∧
    ((postOrder true now2 p (postOrder true now p st).2).2).orders =
      st.orders ++ [mkOrder p now, mkOrder p now2] := by
  refine ⟨postOrder_valid_eval now p st h, rfl, rfl, rfl, rfl, ?_⟩
  rw [postOrder_valid_eval now p st h]
  rw [postOrder_valid_eval now2 p _ h]
  simp

/-- C8 witness: Jane Doe's order is appended with trimmed name, coerced total
`9.99` and the handler's clock value; submitting it twice appends two
documents. -/
theorem c8_order_insert_witness :
    orderValidB
        { name := some " Jane Doe ", phone := some "5551234",
          items := some [.jstr "book"], total := some (.jstr "9.99") } = true ∧
    (postOrder true 7
        { name := some " Jane Doe ", phone := some "5551234",
          items := some [.jstr "book"], total := some (.jstr "9.99") } mathStore =
      (.okOrder
          (mkOrder
            { name := some " Jane Doe ", phone := some "5551234",
              items := some [.jstr "book"], total := some (.jstr "9.99") } 7),
        { mathStore with
            orders := mathStore.orders ++
              [mkOrder
                 { name := some " Jane Doe ", phone := some "5551234",
                   items := some [.jstr "book"], total := some (.jstr "9.99") } 7] }) ∧
      (mkOrder
          { name := some " Jane Doe ", phone := some "5551234",
            items := some [.jstr "book"], total := some (.jstr "9.99") } 7).name =
        jsTrim ((some " Jane Doe " : Option String).getD "") ∧
      (mkOrder
          { name := some " Jane Doe ", phone := some "5551234",
            items := some [.jstr "book"], total := some (.jstr "9.99") } 7).phone =
        jsTrim ((some "5551234" : Option String).getD "") ∧
      (mkOrder
          { name := some " Jane Doe ", phone := some "5551234",
            items := some [.jstr "book"], total := some (.jstr "9.99") } 7).total =
        (toNumber (some (.jstr "9.99"))).getD 0 ∧
      (mkOrder
          { name := some " Jane Doe ", phone := some "5551234",
            items := some [.jstr "book"], total := some (.jstr "9.99") } 7).createdAt = 7 ∧
      ((postOrder true 8
          { name := some " Jane Doe ", phone := some "5551234",
            items := some [.jstr "book"], total := some (.jstr "9.99") }
          (postOrder true 7
            { name := some " Jane Doe ", phone := some "5551234",
              items := some [.jstr "book"], total := some (.jstr "9.99") }
            mathStore).2).2).orders =
        mathStore.orders ++
          [mkOrder
             { name := some " Jane Doe ", phone := some "5551234",
               items := some [.jstr "book"], total := some (.jstr "9.99") } 7,
           mkOrder
             { name := some " Jane Doe ", phone := some "5551234",
               items := some [.jstr "book"], total := some (.jstr "9.99") } 8]) :=
  ⟨by decide, c8_order_insert 7 8 _ mathStore (by decide)⟩

/-- C9: a PUT /api/lessons payload whose spaces field is `null` or the empty
string, with truthy subject and city matching a lesson, is not rejected:
`Number` coerces spaces to 0, the matched entry's spaces is set to 0 via the
update, and the response is 200 with spaces 0. -/
theorem c9_null_or_empty_spaces_zero (p : PutPayload) (st : Store)
    (hs : truthyOpt p.subject = true) (hc : truthyOpt p.city = true)
    (hsp : p.spaces = some .jnull ∨ p.spaces = some (.jstr ""))
    (hm : st.lessons.any
        (lessonMatches (p.subject.getD .jnull) (p.city.getD .jnull)) = true) :
    ∃ ls',
      updateOne (p.subject.getD .jnull) (p.city.getD .jnull) 0 st.lessons = some ls' ∧
      putLessons true p st =
        (.ok (p.subject.getD .jnull) (p.city.getD .jnull) 0,
          { st with lessons := ls' }) := by
  have hq : toNumber p.spaces = some 0 := by
    rcases hsp with h | h <;> rw [h] <;> decide
  have hne : ¬ updateOne (p.subject.getD .jnull) (p.city.getD .jnull) (0 : ℚ)
      st.lessons = none := by
    rw [updateOne_eq_none_iff]; simp [hm]
  cases hu : updateOne (p.subject.getD .jnull) (p.city.getD .jnull) (0 : ℚ) st.lessons with
  | none => exact absurd hu hne
  | some ls' =>
      exact ⟨ls', rfl, putLessons_ok_of p st 0 ls' hs hc hq (by norm_num) hu⟩

/-- C9 witness: `spaces: null` on Math/Berlin passes validation and zeroes the
Berlin entry. -/
theorem c9_null_or_empty_spaces_zero_witness :
    truthyOpt (putMB .jnull).subject = true ∧
    truthyOpt (putMB .jnull).city = true ∧
    ((putMB .jnull).spaces = some .jnull ∨ (putMB .jnull).spaces = some (.jstr "")) ∧
    mathStore.lessons.any
        (lessonMatches ((putMB .jnull).subject.getD .jnull)
          ((putMB .jnull).city.getD .jnull)) = true ∧
    (∃ ls',
      updateOne ((putMB .jnull).subject.getD .jnull)
          ((putMB .jnull).city.getD .jnull) 0 mathStore.lessons = some ls' ∧
      putLessons true (putMB .jnull) mathStore =
        (.ok ((putMB .jnull).subject.getD .jnull)
            ((putMB .jnull).city.getD .jnull) 0,
          { mathStore with lessons := ls' })) :=
  ⟨by decide, by decide, Or.inl rfl, by decide,
   c9_null_or_empty_spaces_zero (putMB .jnull) mathStore
     (by decide) (by decide) (Or.inl rfl) (by decide)⟩

/-- C10: a POST /api/order payload with no name field is rejected with the
name format error (the handler substitutes the empty string), and one with a
valid name but no phone field with the phone format error; in both cases the
store is untouched. -/
theorem c10_missing_name_phone (now : ℕ) (p : OrderPayload) (st : Store) :
    (p.name = none →
      postOrder true now p st = (.badRequest "Invalid name format", st)) ∧
    (nameOk (p.name.getD "") = true → p.phone = none →
      postOrder true now p st = (.badRequest "Invalid phone format", st)) := by
  constructor
  · intro h
    have hn : nameOk (p.name.getD "") = false := by rw [h]; decide
    simp [postOrder, hn]
  · intro hn h
    have hp : phoneOk (p.phone.getD "") = false := by rw [h]; decide
    simp [postOrder, hn, hp]

/-- C10 witness: a payload without a name gets "Invalid name format"; one with
name `Jane` and no phone gets "Invalid phone format"; the store is unchanged
both times. -/
theorem c10_missing_name_phone_witness :
    (({ name := none, phone := some "123", items := some [.jnum 1],
        total := some (.jnum 5) } : OrderPayload).name = none) ∧
    postOrder true 0
        { name := none, phone := some "123", items := some [.jnum 1],
          total := some (.jnum 5) } mathStore =
      (.badRequest "Invalid name format", mathStore) ∧
    nameOk ((some "Jane" : Option String).getD "") = true ∧
    (({ name := some "Jane", phone := none, items := some [.jnum 1],
        total := some (.jnum 5) } : OrderPayload).phone = none) ∧
    postOrder true 0
        { name := some "Jane", phone := none, items := some [.jnum 1],
          total := some (.jnum 5) } mathStore =
      (.badRequest "Invalid phone format", mathStore) :=
  ⟨rfl,
   (c10_missing_name_phone 0 _ mathStore).1 rfl,
   by decide,
   rfl,
   (c10_missing_name_phone 0 _ mathStore).2 (by decide) rfl⟩

/-- C6 counterexample: starting from a store in which every spaces value is an
integer, the validated payload `spaces: 2.5` succeeds and stores the
fractional value 5/2 — the endpoint does store non-integer spaces values,
because validation only requires `Number(spaces)` to be finite and ≥ 0. -/
theorem c6_fractional_spaces_stored :
    Store.allSpacesInt mathStore = true ∧
    (putLessons true (putMB (.jnum (mkRat 5 2))) mathStore).1 =
      .ok (.jstr "Math") (.jstr "Berlin") (mkRat 5 2) ∧
    Store.allSpacesInt (putLessons true (putMB (.jnum (mkRat 5 2))) mathStore).2 =
      false :=
  ⟨by decide, by decide, by decide⟩

/-- C6 (amended): a successful PUT /api/lessons preserves non-negativity of
every stored spaces value (the validated value is ≥ 0 and nothing else is
touched), but not integrality: a fractional value ≥ 0 passes validation and is
stored as-is. -/
theorem c6_nonneg_preserved (p : PutPayload) (st st' : Store) (s c : JsonVal) (q : ℚ)
    (hinv : st.spacesNonneg = true)
    (h : putLessons true p st = (.ok s c q, st')) :
    st'.spacesNonneg = true := by
  obtain ⟨hs, hc, hsub, hcity, hq, h0, ls', hu, hst⟩ := putLessons_ok_inv p st s c q st' h
  subst hst
  obtain ⟨preL, l, postL, h1, h2, h3⟩ := updateOne_split _ _ q _ _ hu
  have hany : l.locations.any (locCityMatch c) = true := by
    have h2' := h2
    simp only [lessonMatches, Bool.and_eq_true] at h2'
    exact h2'.2
  obtain ⟨preLoc, loc, postLoc, g1, g2, g3⟩ := setFirstSpaces_split c q l.locations hany
  have hq0 : 0 ≤ q := not_lt.mp h0
  simp only [Store.spacesNonneg, h1, g1, List.all_append, List.all_cons,
    Bool.and_eq_true] at hinv
  simp only [Store.spacesNonneg, h3, g3, List.all_append, List.all_cons,
    Bool.and_eq_true]
  obtain ⟨hpreL, ⟨hpreLoc, hloc, hpostLoc⟩, hpostL⟩ := hinv
  exact ⟨hpreL, ⟨hpreLoc, by simpa using hq0, hpostLoc⟩, hpostL⟩

/-- C6 witness: the all-integer sample store stays non-negative after setting
Math/Berlin to 5/2. -/
theorem c6_nonneg_preserved_witness :
    Store.spacesNonneg mathStore = true ∧
    putLessons true (putMB (.jnum (mkRat 5 2))) mathStore =
      (.ok (.jstr "Math") (.jstr "Berlin") (mkRat 5 2), mathStoreB (mkRat 5 2)) ∧
    Store.spacesNonneg (mathStoreB (mkRat 5 2)) = true :=
  ⟨by decide, by decide,
   c6_nonneg_preserved (putMB (.jnum (mkRat 5 2))) mathStore (mathStoreB (mkRat 5 2))
     (.jstr "Math") (.jstr "Berlin") (mkRat 5 2) (by decide) (by decide)⟩

/-- C7 counterexample: the payload `{subject: "", city: "Berlin", spaces: 3}`
has all three fields present, yet PUT /api/lessons rejects it with the
MissingFields message, because the check `!subject` at src/server.js line 104
tests JavaScript truthiness, not presence. -/
theorem c7_present_but_falsy_rejected :
    ((some (JsonVal.jstr "") : Option JsonVal) ≠ none ∧
      (some (JsonVal.jstr "Berlin") : Option JsonVal) ≠ none ∧
      (some (JsonVal.jnum 3) : Option JsonVal) ≠ none) ∧
    putLessons true
        { subject := some (.jstr ""), city := some (.jstr "Berlin"),
          spaces := some (.jnum 3) } mathStore =
      (.badRequest "subject, city, and spaces are required", mathStore) :=
  ⟨⟨by decide, by decide, by decide⟩, by decide⟩

/-- C7 (amended): PUT /api/lessons answers 400 "subject, city, and spaces are
required" exactly when subject is absent or falsy, or city is absent or falsy,
or spaces is absent — so a present-but-falsy subject or city (empty string, 0,
false, null) is also rejected, while a present-but-null spaces passes the
presence check. -/
theorem c7_missing_fields_iff (p : PutPayload) (st : Store) :
    (putLessons true p st).1 = .badRequest "subject, city, and spaces are required" ↔
      (truthyOpt p.subject = false ∨ truthyOpt p.city = false ∨ p.spaces = none) := by
  cases hs : truthyOpt p.subject with
  | false => simp [putLessons, hs]
  | true =>
  cases hc : truthyOpt p.city with
  | false => simp [putLessons, hs, hc]
  | true =>
  cases hspx : p.spaces with
  | none => simp [putLessons, hs, hc, hspx]
  | some v =>
    cases hq : toNumber (some v) with
    | none => simp [putLessons, hs, hc, hspx, hq]
    | some q =>
      by_cases h0 : q < 0
      · simp [putLessons, hs, hc, hspx, hq, h0]
      · have hev := putLessons_valid_eval p st q hs hc (by rw [hspx]; exact hq) h0
        rw [hev]
        cases hu : updateOne (p.subject.getD .jnull) (p.city.getD .jnull) q st.lessons with
        | none => simp [hspx]
        | some ls' => simp [hspx]

/-- C7 witness: a payload with spaces absent is rejected with the
MissingFields message. -/
theorem c7_missing_fields_iff_witness :
    ((putLessons true
        { subject := some (.jstr "Math"), city := some (.jstr "Berlin"),
          spaces := none } mathStore).1 =
      .badRequest "subject, city, and spaces are required" ↔
      (truthyOpt (some (JsonVal.jstr "Math")) = false ∨
        truthyOpt (some (JsonVal.jstr "Berlin")) = false ∨
        (none : Option JsonVal) = none)) ∧
    (putLessons true
        { subject := some (.jstr "Math"), city := some (.jstr "Berlin"),
          spaces := none } mathStore).1 =
      .badRequest "subject, city, and spaces are required" :=
  ⟨c7_missing_fields_iff _ mathStore, by decide⟩

end LessonsApp
